import Mathlib

/-! Shallow embedding of the Express backend in src/server.js: a billing relay
(checkout and portal sessions against Stripe), a Stripe webhook ingestor
projecting subscription events into a Supabase-backed profile store, a Gemini
generation relay and an MMM analytics relay, all behind a bearer-token check.

External collaborators (Stripe SDK, Supabase client, Gemini SDK, fetch) are
modelled as oracle parameters. Supabase PostgREST calls (`select`, `update`)
follow the client library's result-style semantics: they resolve with a value
carrying an optional error and never reject, so an ignored error result leaves
the handler on its success path. Stripe SDK calls throw on failure, which the
handlers catch and map to HTTP 500.
-/

namespace MyAppBackend

/-- A row of the user_profiles table as read and written by server.js:
columns id, email, stripe_customer_id, subscription_id, subscription_status. -/
structure Profile where
  id : String
  email : Option String
  stripe_customer_id : Option String
  subscription_id : Option String
  subscription_status : Option String
deriving DecidableEq, Repr

/-- The user_profiles table, one Profile per row. -/
abbrev DB := List Profile

def defaultProfile : Profile := ⟨"", none, none, none, none⟩

/-- JavaScript truthiness test on an optional string value: `undefined`, `null`
and the empty string are falsy. server.js guards such as
`if (!stripeCustomerId)` and `if (!process.env.X)` use this test. -/
def isFalsy : Option String → Bool
  | none => true
  | some s => s == ""

/-- The authenticated principal returned by supabase.auth.getUser. -/
structure AuthUser where
  id : String
  email : Option String
deriving DecidableEq, Repr

/-- The bodies a handler in server.js can send. -/
inductive RespBody where
  /-- res.json with received true (webhook acknowledgement). -/
  | receivedTrue
  /-- the 400 text body built from the verification error message. -/
  | webhookError (msg : String)
  /-- a JSON error envelope with error and optional details fields. -/
  | errorEnvelope (error : String) (details : Option String)
  /-- res.json with a sessionId field. -/
  | sessionId (sid : String)
  /-- res.json with a url field (portal). -/
  | portalUrl (url : String)
  /-- raw text body (Gemini relay success). -/
  | rawText (t : String)
  /-- the upstream JSON body relayed verbatim (MMM relay). -/
  | passthrough (body : String)
deriving DecidableEq, Repr

/-- An HTTP response: status code plus body. -/
structure Resp where
  status : Nat
  body : RespBody
deriving DecidableEq, Repr

/-- Upstream side effects a handler performs, in order. The read-only identity
verification (supabase.auth.getUser) is not an effect; every Stripe call,
data-store write attempt, Gemini call and MMM fetch is. -/
inductive Effect where
  | stripeCustomerCreate (email : Option String)
  | dbStoreCustomerId (userId : String) (cid : String)
  | stripeCheckoutCreate (cid : String)
  | stripePortalCreate (cid : String)
  | dbSubscriptionWrite (cid : Option String)
  | aiGenerate (model : String)
  | mmmFetch
deriving DecidableEq, Repr

/-- Splits a character list on the space character, the way JavaScript
`split(' ')` splits a string. -/
def splitSpaces : List Char → List Char → List (List Char)
  | [], acc => [acc.reverse]
  | c :: rest, acc =>
    if c = ' ' then acc.reverse :: splitSpaces rest []
    else splitSpaces rest (c :: acc)

/-- JavaScript `authHeader.split(' ')[1]`. -/
def bearerToken (h : String) : String :=
  ⟨(splitSpaces h.data []).getD 1 []⟩

/-- JavaScript `authHeader.startsWith('Bearer ')`. -/
def hasBearerMarker (h : String) : Bool :=
  "Bearer ".data.isPrefixOf h.data

/-- getSupabaseUser from server.js: rejects an absent header or one not
starting with a Bearer marker, then asks the identity provider (oracle
`gu`, standing for supabase.auth.getUser) to resolve the token. Each failure
sends a 401 response and yields no principal. -/
def getSupabaseUser (gu : String → Except String AuthUser)
    (authHeader : Option String) : Except Resp AuthUser :=
  match authHeader with
  | none => .error ⟨401, .errorEnvelope "Missing or invalid Authorization header" none⟩
  | some h =>
    if hasBearerMarker h then
      match gu (bearerToken h) with
      | .error e => .error ⟨401, .errorEnvelope "Invalid access token" (some e)⟩
      | .ok u => .ok u
    else .error ⟨401, .errorEnvelope "Missing or invalid Authorization header" none⟩

/-- The profile select with `.eq('id', uid).single()`: succeeds exactly when
the table holds exactly one row with that id. -/
def findProfile (db : DB) (uid : String) : Option Profile :=
  match db.filter (fun p => p.id == uid) with
  | [p] => some p
  | _ => none

/-- JavaScript `profile.email || user.email`. -/
def orElseStr (a b : Option String) : Option String :=
  if isFalsy a then b else a

/-- The row update of `update(stripe_customer_id).eq('id', uid)`. -/
def setCidRow (uid cid : String) (p : Profile) : Profile :=
  if p.id == uid then { p with stripe_customer_id := some cid } else p

/-- POST /api/stripe/create-checkout-session (server.js lines 62-105).
Oracle parameters: `gu` resolves bearer tokens; `custCreate` is the result of
stripe.customers.create (ok id, or a thrown error caught at line 101);
`sessCreate` likewise for stripe.checkout.sessions.create; `selOk` is false
when the profile select resolves with an error even though rows may exist;
`storeOk` is false when the customer-id update resolves with an error (the
store is unchanged and, the result being ignored, execution continues).
Returns the response, the resulting table and the effect trace. -/
def createCheckoutSession (gu : String → Except String AuthUser)
    (custCreate sessCreate : Except String String) (selOk storeOk : Bool)
    (db : DB) (authHeader : Option String) (bodyUserId : Option String) :
    Resp × DB × List Effect :=
  match getSupabaseUser gu authHeader with
  | .error r => (r, db, [])
  | .ok user =>
    if bodyUserId ≠ some user.id then
      (⟨403, .errorEnvelope "User token does not match requested user ID." none⟩, db, [])
    else if !selOk then
      (⟨404, .errorEnvelope "User profile not found." none⟩, db, [])
    else
      match findProfile db user.id with
      | none => (⟨404, .errorEnvelope "User profile not found." none⟩, db, [])
      | some profile =>
        if isFalsy profile.stripe_customer_id then
          match custCreate with
          | .error e =>
            (⟨500, .errorEnvelope e none⟩, db,
              [.stripeCustomerCreate (orElseStr profile.email user.email)])
          | .ok newCid =>
            let db1 := if storeOk then db.map (setCidRow user.id newCid) else db
            match sessCreate with
            | .error e =>
              (⟨500, .errorEnvelope e none⟩, db1,
                [.stripeCustomerCreate (orElseStr profile.email user.email),
                 .dbStoreCustomerId user.id newCid, .stripeCheckoutCreate newCid])
            | .ok sid =>
              (⟨200, .sessionId sid⟩, db1,
                [.stripeCustomerCreate (orElseStr profile.email user.email),
                 .dbStoreCustomerId user.id newCid, .stripeCheckoutCreate newCid])
        else
          match sessCreate with
          | .error e =>
            (⟨500, .errorEnvelope e none⟩, db,
              [.stripeCheckoutCreate (profile.stripe_customer_id.getD "")])
          | .ok sid =>
            (⟨200, .sessionId sid⟩, db,
              [.stripeCheckoutCreate (profile.stripe_customer_id.getD "")])

/-- POST /api/stripe/create-portal-session (server.js lines 108-131). -/
def createPortalSession (gu : String → Except String AuthUser)
    (portalCreate : Except String String) (selOk : Bool)
    (db : DB) (authHeader : Option String) : Resp × DB × List Effect :=
  match getSupabaseUser gu authHeader with
  | .error r => (r, db, [])
  | .ok user =>
    if !selOk then
      (⟨404, .errorEnvelope "Stripe customer ID not found for user." none⟩, db, [])
    else
      match findProfile db user.id with
      | none => (⟨404, .errorEnvelope "Stripe customer ID not found for user." none⟩, db, [])
      | some profile =>
        if isFalsy profile.stripe_customer_id then
          (⟨404, .errorEnvelope "Stripe customer ID not found for user." none⟩, db, [])
        else
          match portalCreate with
          | .error e =>
            (⟨500, .errorEnvelope e none⟩, db,
              [.stripePortalCreate (profile.stripe_customer_id.getD "")])
          | .ok url =>
            (⟨200, .portalUrl url⟩, db,
              [.stripePortalCreate (profile.stripe_customer_id.getD "")])

/-- The data.object of a Stripe event, with the fields server.js reads. -/
structure EventObject where
  customer : Option String
  mode : Option String
  subscription : Option String
  status : Option String
deriving DecidableEq, Repr

/-- A Stripe event after successful construction: declared type plus object. -/
structure StripeEvent where
  type : String
  object : EventObject
deriving DecidableEq, Repr

/-- Row match for `update(..).eq('stripe_customer_id', customerId)`: a row
matches when the event carries a customer id equal to the stored one. -/
def cidMatches (cid : Option String) (p : Profile) : Bool :=
  match cid with
  | some s => p.stripe_customer_id == some s
  | none => false

/-- A bulk update keyed by stripe_customer_id, applied to every matching row. -/
def applyWhereCid (db : DB) (cid : Option String) (f : Profile → Profile) : DB :=
  db.map (fun p => if cidMatches cid p then f p else p)

/-- POST /api/stripe/webhook (server.js lines 135-180).
`ce` is stripe.webhooks.constructEvent applied to raw body, header value and
secret: an error is a failed verification, answered 400 before any dispatch.
On success the handler dispatches on the event type; `writeOk` is false when
the Supabase update resolves with an error, in which case the table is
unchanged — the client library never rejects and server.js ignores the
returned error, so the catch block mapping thrown errors to 500 is not reached
by a data-store failure and the handler still acknowledges with 200. -/
def stripeWebhook
    (ce : String → Option String → String → Except String StripeEvent)
    (secret : String) (writeOk : Bool)
    (db : DB) (rawBody : String) (sigHeader : Option String) :
    Resp × DB × List Effect :=
  match ce rawBody sigHeader secret with
  | .error msg => (⟨400, .webhookError msg⟩, db, [])
  | .ok ev =>
    let cid := ev.object.customer
    if ev.type = "checkout.session.completed" then
      if ev.object.mode = some "subscription" then
        let db1 := if writeOk then
            applyWhereCid db cid (fun p =>
              { p with subscription_id := ev.object.subscription,
                       subscription_status := some "trialing" })
          else db
        (⟨200, .receivedTrue⟩, db1, [.dbSubscriptionWrite cid])
      else
        (⟨200, .receivedTrue⟩, db, [])
    else if ev.type = "customer.subscription.updated" ∨
        ev.type = "customer.subscription.deleted" then
      let db1 := if writeOk then
          applyWhereCid db cid (fun p =>
            { p with subscription_status := ev.object.status })
        else db
      (⟨200, .receivedTrue⟩, db1, [.dbSubscriptionWrite cid])
    else
      (⟨200, .receivedTrue⟩, db, [])

/-- POST /api/gemini/proxy (server.js lines 183-206). `aiResult` is the
generateContent call: ok text, or a thrown error mapped to 500. -/
def geminiProxy (gu : String → Except String AuthUser)
    (aiResult : Except String String) (authHeader : Option String)
    (promptField modelField : Option String) : Resp × List Effect :=
  match getSupabaseUser gu authHeader with
  | .error r => (r, [])
  | .ok _ =>
    if isFalsy promptField || isFalsy modelField then
      (⟨400, .errorEnvelope "Missing required fields: prompt and model." none⟩, [])
    else
      match aiResult with
      | .ok t => (⟨200, .rawText t⟩, [.aiGenerate (modelField.getD "")])
      | .error e =>
        (⟨500, .errorEnvelope "Failed to get response from AI model." (some e)⟩,
          [.aiGenerate (modelField.getD "")])

/-- POST /api/mmm/proxy (server.js lines 209-235). `upstream` is the fetch to
the analytics endpoint followed by body parsing: ok carries the upstream
status code and parsed JSON body, error is a thrown network or parse failure
mapped to 500. On success the status and body are sent back unchanged. -/
def mmmProxy (gu : String → Except String AuthUser)
    (mmmApiKey : Option String) (upstream : Except String (Nat × String))
    (authHeader : Option String) : Resp × List Effect :=
  match getSupabaseUser gu authHeader with
  | .error r => (r, [])
  | .ok _ =>
    if isFalsy mmmApiKey then
      (⟨500, .errorEnvelope "MMM API key is not configured on the server." none⟩, [])
    else
      match upstream with
      | .ok su => (⟨su.1, .passthrough su.2⟩, [.mmmFetch])
      | .error e =>
        (⟨500, .errorEnvelope "Failed to proxy request to MMM service." (some e)⟩,
          [.mmmFetch])

/-- The environment variables server.js reads. -/
structure Env where
  stripe_secret_key : Option String
  supabase_url : Option String
  supabase_service_role_key : Option String
  api_key : Option String
  mmm_api_key : Option String
  stripe_price_id : Option String
  app_url : Option String
  stripe_webhook_secret : Option String
deriving DecidableEq, Repr

/-- The startup guard of server.js line 35: the process exits before serving
when this is false. It tests STRIPE_SECRET_KEY, SUPABASE_URL,
SUPABASE_SERVICE_ROLE_KEY, API_KEY, MMM_API_KEY, STRIPE_PRICE_ID and APP_URL. -/
def startupCheckPasses (e : Env) : Bool :=
  !(isFalsy e.stripe_secret_key || isFalsy e.supabase_url ||
    isFalsy e.supabase_service_role_key || isFalsy e.api_key ||
    isFalsy e.mmm_api_key || isFalsy e.stripe_price_id || isFalsy e.app_url)

/-! Theorems settling the claims, one per claim, with witnesses where the
statement carries hypotheses. -/

/-- C1: a webhook request whose signature does not verify is answered 400,
the table is untouched and no effect — in particular no dispatch of the body
as an event — takes place, whatever the body contains. -/
theorem webhook_invalid_signature_rejected
    (ce : String → Option String → String → Except String StripeEvent)
    (secret rawBody : String) (sigHeader : Option String)
    (writeOk : Bool) (db : DB) (msg : String)
    (hver : ce rawBody sigHeader secret = .error msg) :
    stripeWebhook ce secret writeOk db rawBody sigHeader =
      (⟨400, .webhookError msg⟩, db, []) := by
  simp [stripeWebhook, hver]

/-- Witness for C1 at a concrete rejecting verifier and table. -/
theorem webhook_invalid_signature_rejected_witness :
    (fun (_ : String) (_ : Option String) (_ : String) =>
        (Except.error "bad" : Except String StripeEvent)) "body" (some "sig") "sec"
      = .error "bad" ∧
    stripeWebhook (fun _ _ _ => .error "bad") "sec" true
        [⟨"u1", none, some "cus_1", none, some "active"⟩] "body" (some "sig") =
      (⟨400, .webhookError "bad"⟩,
        [⟨"u1", none, some "cus_1", none, some "active"⟩], []) :=
  ⟨rfl, webhook_invalid_signature_rejected _ "sec" "body" (some "sig") true _ "bad" rfl⟩

/-- An environment holding every variable the startup guard tests, with the
webhook secret left unset. -/
def envNoWebhookSecret : Env :=
  ⟨some "sk", some "url", some "srk", some "gk", some "mk", some "price",
    some "app", none⟩

/-- C2 counterexample: the payments webhook secret is absent from the
environment, yet the startup guard passes and the process serves requests. -/
theorem startup_check_ignores_webhook_secret :
    envNoWebhookSecret.stripe_webhook_secret = none ∧
    startupCheckPasses envNoWebhookSecret = true :=
  ⟨rfl, rfl⟩

/-- C2 amended: the startup guard refuses to start exactly when one of the
seven tested variables — payments secret key, identity-provider URL, service
key, AI provider key, analytics provider key, payments price identifier,
public application URL — is absent or empty; the webhook secret is not
tested. -/
theorem startup_check_characterisation (e : Env) :
    startupCheckPasses e = false ↔
      (isFalsy e.stripe_secret_key = true ∨ isFalsy e.supabase_url = true ∨
        isFalsy e.supabase_service_role_key = true ∨ isFalsy e.api_key = true ∨
        isFalsy e.mmm_api_key = true ∨ isFalsy e.stripe_price_id = true ∨
        isFalsy e.app_url = true) := by
  simp only [startupCheckPasses, Bool.not_eq_false', Bool.or_eq_true]
  tauto

/-- A table holding one profile linked to Stripe customer cus_1. -/
def dbOne : DB := [⟨"u1", some "a@b.c", some "cus_1", some "sub_1", some "active"⟩]

/-- A validly constructed subscription-deleted event for customer cus_1. -/
def evDeleted : StripeEvent :=
  ⟨"customer.subscription.deleted", ⟨some "cus_1", none, none, some "canceled"⟩⟩

/-- C3: with a valid signature and a failing data-store write, the handler
still answers 200 with received true and the profile keeps its old status —
the Supabase client resolves with an error value instead of rejecting, and
server.js never inspects it, so the 500 branch is unreachable for data-store
failures. -/
theorem webhook_write_failure_still_200 :
    stripeWebhook (fun _ _ _ => .ok evDeleted) "sec" false dbOne "body" (some "sig") =
      (⟨200, .receivedTrue⟩, dbOne, [.dbSubscriptionWrite (some "cus_1")]) := by
  rfl

/-- C9: an authenticated analytics-relay request whose upstream call completes
is answered with the upstream status code and body unchanged, non-2xx
included. -/
theorem mmm_passthrough
    (gu : String → Except String AuthUser) (authHeader : Option String)
    (u : AuthUser) (hauth : getSupabaseUser gu authHeader = .ok u)
    (key : Option String) (hkey : isFalsy key = false)
    (s : Nat) (b : String) :
    mmmProxy gu key (.ok (s, b)) authHeader = (⟨s, .passthrough b⟩, [.mmmFetch]) := by
  simp [mmmProxy, hauth, hkey]

/-- Witness for C9: an upstream 429 is relayed as 429 with the same body. -/
theorem mmm_passthrough_witness :
    getSupabaseUser (fun _ => .ok ⟨"u1", none⟩) (some "Bearer t") = .ok ⟨"u1", none⟩ ∧
    isFalsy (some "mk") = false ∧
    mmmProxy (fun _ => .ok ⟨"u1", none⟩) (some "mk") (.ok (429, "rate limited"))
        (some "Bearer t") =
      (⟨429, .passthrough "rate limited"⟩, [.mmmFetch]) :=
  ⟨rfl, rfl, mmm_passthrough (fun _ => .ok ⟨"u1", none⟩) (some "Bearer t")
    ⟨"u1", none⟩ rfl (some "mk") rfl 429 "rate limited"⟩

/-- C10: a validly signed checkout.session.completed event whose mode is not
the subscription mode causes no write attempt and no table change, and is
still acknowledged 200 with received true. -/
theorem checkout_completed_other_mode_noop
    (ce : String → Option String → String → Except String StripeEvent)
    (secret rawBody : String) (sigHeader : Option String)
    (writeOk : Bool) (db : DB) (ev : StripeEvent)
    (hver : ce rawBody sigHeader secret = .ok ev)
    (hty : ev.type = "checkout.session.completed")
    (hmode : ev.object.mode ≠ some "subscription") :
    stripeWebhook ce secret writeOk db rawBody sigHeader =
      (⟨200, .receivedTrue⟩, db, []) := by
  simp [stripeWebhook, hver, hty, hmode]

/-- Witness for C10 at a concrete payment-mode event. -/
theorem checkout_completed_other_mode_noop_witness :
    (fun (_ : String) (_ : Option String) (_ : String) =>
        (Except.ok ⟨"checkout.session.completed", ⟨some "cus_1", some "payment", none, none⟩⟩ :
          Except String StripeEvent)) "body" (some "sig") "sec"
      = .ok ⟨"checkout.session.completed", ⟨some "cus_1", some "payment", none, none⟩⟩ ∧
    stripeWebhook (fun _ _ _ =>
        .ok ⟨"checkout.session.completed", ⟨some "cus_1", some "payment", none, none⟩⟩)
        "sec" true dbOne "body" (some "sig") =
      (⟨200, .receivedTrue⟩, dbOne, []) :=
  ⟨rfl, checkout_completed_other_mode_noop _ "sec" "body" (some "sig") true dbOne
    ⟨"checkout.session.completed", ⟨some "cus_1", some "payment", none, none⟩⟩
    rfl rfl (by decide)⟩

/-- A customer-keyed bulk update on a table with no matching row changes
nothing. -/
theorem applyWhereCid_no_match (cid : Option String) (f : Profile → Profile) :
    ∀ db : DB, (∀ p ∈ db, cidMatches cid p = false) →
      applyWhereCid db cid f = db := by
  intro db
  induction db with
  | nil => intro _; rfl
  | cons a t ih =>
    intro h
    have ha := h a (by simp)
    have ht := ih (fun p hp => h p (by simp [hp]))
    simp only [applyWhereCid, List.map_cons] at ht ⊢
    rw [ha]
    simp [ht]

/-- C7: a validly signed subscription-updated or subscription-deleted event
carrying customer id c and status st rewrites every row whose stored customer
id is c to the same row with subscription_status set to exactly st — no other
field of any row changes, rows with another customer id are untouched — and
the handler acknowledges 200 with received true. -/
theorem subscription_event_sets_exact_status
    (ce : String → Option String → String → Except String StripeEvent)
    (secret rawBody : String) (sigHeader : Option String)
    (db : DB) (ev : StripeEvent) (c st : String)
    (hver : ce rawBody sigHeader secret = .ok ev)
    (hty : ev.type = "customer.subscription.updated" ∨
      ev.type = "customer.subscription.deleted")
    (hcid : ev.object.customer = some c)
    (hst : ev.object.status = some st) :
    stripeWebhook ce secret true db rawBody sigHeader =
      (⟨200, .receivedTrue⟩,
        db.map (fun p => if p.stripe_customer_id = some c
          then { p with subscription_status := some st } else p),
        [.dbSubscriptionWrite (some c)]) := by
  rcases hty with h | h <;>
    simp [stripeWebhook, hver, h, hcid, hst, applyWhereCid, cidMatches]

/-- Witness for C7: a deleted event with status canceled for the stored
customer cus_1 sets exactly that profile's status to canceled. -/
theorem subscription_event_sets_exact_status_witness :
    (fun (_ : String) (_ : Option String) (_ : String) =>
        (Except.ok evDeleted : Except String StripeEvent)) "body" (some "sig") "sec"
      = .ok evDeleted ∧
    evDeleted.type = "customer.subscription.deleted" ∧
    evDeleted.object.customer = some "cus_1" ∧
    evDeleted.object.status = some "canceled" ∧
    stripeWebhook (fun _ _ _ => .ok evDeleted) "sec" true dbOne "body" (some "sig") =
      (⟨200, .receivedTrue⟩,
        [⟨"u1", some "a@b.c", some "cus_1", some "sub_1", some "canceled"⟩],
        [.dbSubscriptionWrite (some "cus_1")]) := by
  refine ⟨rfl, rfl, rfl, rfl, ?_⟩
  rw [subscription_event_sets_exact_status (fun _ _ _ => .ok evDeleted) "sec" "body"
    (some "sig") dbOne evDeleted "cus_1" "canceled" rfl (Or.inr rfl) rfl rfl]
  rfl

/-- C8: a validly signed checkout-completed event whose customer id matches no
stored row is acknowledged 200 with received true and mutates no profile. -/
theorem checkout_completed_unknown_customer_noop
    (ce : String → Option String → String → Except String StripeEvent)
    (secret rawBody : String) (sigHeader : Option String)
    (writeOk : Bool) (db : DB) (ev : StripeEvent)
    (hver : ce rawBody sigHeader secret = .ok ev)
    (hty : ev.type = "checkout.session.completed")
    (hnomatch : ∀ p ∈ db, cidMatches ev.object.customer p = false) :
    (stripeWebhook ce secret writeOk db rawBody sigHeader).1 =
      ⟨200, .receivedTrue⟩ ∧
    (stripeWebhook ce secret writeOk db rawBody sigHeader).2.1 = db := by
  have hnm := applyWhereCid_no_match ev.object.customer
    (fun p => { p with subscription_id := ev.object.subscription,
                       subscription_status := some "trialing" }) db hnomatch
  by_cases hmode : ev.object.mode = some "subscription" <;>
    cases writeOk <;>
      simp [stripeWebhook, hver, hty, hmode, hnm]

/-- Witness for C8 at a concrete event referencing an unknown customer. -/
theorem checkout_completed_unknown_customer_noop_witness :
    (fun (_ : String) (_ : Option String) (_ : String) =>
        (Except.ok ⟨"checkout.session.completed",
          ⟨some "cus_other", some "subscription", some "sub_9", none⟩⟩ :
          Except String StripeEvent)) "body" (some "sig") "sec"
      = .ok ⟨"checkout.session.completed",
          ⟨some "cus_other", some "subscription", some "sub_9", none⟩⟩ ∧
    (∀ p ∈ dbOne, cidMatches (some "cus_other") p = false) ∧
    (stripeWebhook (fun _ _ _ =>
        .ok ⟨"checkout.session.completed",
          ⟨some "cus_other", some "subscription", some "sub_9", none⟩⟩)
        "sec" true dbOne "body" (some "sig")).1 = ⟨200, .receivedTrue⟩ ∧
    (stripeWebhook (fun _ _ _ =>
        .ok ⟨"checkout.session.completed",
          ⟨some "cus_other", some "subscription", some "sub_9", none⟩⟩)
        "sec" true dbOne "body" (some "sig")).2.1 = dbOne := by
  refine ⟨rfl, by decide, ?_⟩
  exact checkout_completed_unknown_customer_noop _ "sec" "body" (some "sig") true dbOne
    ⟨"checkout.session.completed", ⟨some "cus_other", some "subscription", some "sub_9", none⟩⟩
    rfl rfl (by decide)

/-- An absent header, a header without the Bearer marker, or a token the
identity provider rejects makes getSupabaseUser answer 401 with no principal. -/
theorem getSupabaseUser_error_of_bad (gu : String → Except String AuthUser)
    (authHeader : Option String)
    (hbad : authHeader = none ∨
      (∃ h, authHeader = some h ∧ hasBearerMarker h = false) ∨
      (∃ h e, authHeader = some h ∧ hasBearerMarker h = true ∧
        gu (bearerToken h) = .error e)) :
    ∃ d, getSupabaseUser gu authHeader = .error ⟨401, d⟩ := by
  rcases hbad with h | ⟨h, rfl, hb⟩ | ⟨h, e, rfl, hb, hg⟩
  · subst h; exact ⟨_, rfl⟩
  · exact ⟨.errorEnvelope "Missing or invalid Authorization header" none,
      by simp [getSupabaseUser, hb]⟩
  · exact ⟨.errorEnvelope "Invalid access token" (some e),
      by simp [getSupabaseUser, hb, hg]⟩

/-- C6: on any route other than the webhook, a request whose Authorization
header is absent, lacks the Bearer marker, or carries a token the identity
provider rejects is answered 401; the table is unchanged and the effect trace
is empty — no upstream side effect and no data-store mutation happens. -/
theorem auth_failure_401_no_side_effects
    (gu : String → Except String AuthUser) (authHeader : Option String)
    (hbad : authHeader = none ∨
      (∃ h, authHeader = some h ∧ hasBearerMarker h = false) ∨
      (∃ h e, authHeader = some h ∧ hasBearerMarker h = true ∧
        gu (bearerToken h) = .error e))
    (custCreate sessCreate portalCreate aiResult : Except String String)
    (upstream : Except String (Nat × String))
    (selOk storeOk : Bool) (db : DB)
    (bodyUserId promptField modelField mmmKey : Option String) :
    ((createCheckoutSession gu custCreate sessCreate selOk storeOk db authHeader
        bodyUserId).1.status = 401 ∧
      (createCheckoutSession gu custCreate sessCreate selOk storeOk db authHeader
        bodyUserId).2.1 = db ∧
      (createCheckoutSession gu custCreate sessCreate selOk storeOk db authHeader
        bodyUserId).2.2 = []) ∧
    ((createPortalSession gu portalCreate selOk db authHeader).1.status = 401 ∧
      (createPortalSession gu portalCreate selOk db authHeader).2.1 = db ∧
      (createPortalSession gu portalCreate selOk db authHeader).2.2 = []) ∧
    ((geminiProxy gu aiResult authHeader promptField modelField).1.status = 401 ∧
      (geminiProxy gu aiResult authHeader promptField modelField).2 = []) ∧
    ((mmmProxy gu mmmKey upstream authHeader).1.status = 401 ∧
      (mmmProxy gu mmmKey upstream authHeader).2 = []) := by
  obtain ⟨d, hd⟩ := getSupabaseUser_error_of_bad gu authHeader hbad
  simp [createCheckoutSession, createPortalSession, geminiProxy, mmmProxy, hd]

/-- Witness for C6 at an absent Authorization header. -/
theorem auth_failure_401_no_side_effects_witness :
    ((none : Option String) = none ∨
      (∃ h, (none : Option String) = some h ∧ hasBearerMarker h = false) ∨
      (∃ h e, (none : Option String) = some h ∧ hasBearerMarker h = true ∧
        (fun (_ : String) => (Except.ok (⟨"u1", none⟩ : AuthUser) :
          Except String AuthUser)) (bearerToken h) = .error e)) ∧
    ((createCheckoutSession (fun _ => .ok ⟨"u1", none⟩) (.ok "c") (.ok "s")
        true true dbOne none (some "u1")).1.status = 401 ∧
      (createCheckoutSession (fun _ => .ok ⟨"u1", none⟩) (.ok "c") (.ok "s")
        true true dbOne none (some "u1")).2.1 = dbOne ∧
      (createCheckoutSession (fun _ => .ok ⟨"u1", none⟩) (.ok "c") (.ok "s")
        true true dbOne none (some "u1")).2.2 = []) ∧
    ((createPortalSession (fun _ => .ok ⟨"u1", none⟩) (.ok "p") true dbOne
        none).1.status = 401 ∧
      (createPortalSession (fun _ => .ok ⟨"u1", none⟩) (.ok "p") true dbOne
        none).2.1 = dbOne ∧
      (createPortalSession (fun _ => .ok ⟨"u1", none⟩) (.ok "p") true dbOne
        none).2.2 = []) ∧
    ((geminiProxy (fun _ => .ok ⟨"u1", none⟩) (.ok "t") none (some "hi")
        (some "m")).1.status = 401 ∧
      (geminiProxy (fun _ => .ok ⟨"u1", none⟩) (.ok "t") none (some "hi")
        (some "m")).2 = []) ∧
    ((mmmProxy (fun _ => .ok ⟨"u1", none⟩) (some "mk") (.ok (200, "b"))
        none).1.status = 401 ∧
      (mmmProxy (fun _ => .ok ⟨"u1", none⟩) (some "mk") (.ok (200, "b"))
        none).2 = []) :=
  ⟨Or.inl rfl,
    auth_failure_401_no_side_effects (fun _ => .ok ⟨"u1", none⟩) none (Or.inl rfl)
      (.ok "c") (.ok "s") (.ok "p") (.ok "t") (.ok (200, "b")) true true dbOne
      (some "u1") (some "hi") (some "m") (some "mk")⟩

/-- Number of upstream customer creations in an effect trace. -/
def countCustomerCreates (t : List Effect) : Nat :=
  (t.filter (fun e => match e with
    | .stripeCustomerCreate _ => true
    | _ => false)).length

/-- Number of customer-id store attempts in an effect trace. -/
def countStores (t : List Effect) : Nat :=
  (t.filter (fun e => match e with
    | .dbStoreCustomerId _ _ => true
    | _ => false)).length

/-- A successful single-row lookup pins down the filtered table. -/
theorem findProfile_mem (db : DB) (uid : String) (p : Profile)
    (h : findProfile db uid = some p) :
    db.filter (fun q => q.id == uid) = [p] ∧ p ∈ db ∧ (p.id == uid) = true := by
  unfold findProfile at h
  split at h
  · rename_i a ha
    cases h
    refine ⟨ha, ?_⟩
    have hm : p ∈ List.filter (fun q => q.id == uid) db := by rw [ha]; simp
    exact ⟨(List.mem_filter.mp hm).1, (List.mem_filter.mp hm).2⟩
  · cases h

/-- The customer-id row update preserves row ids, so it commutes with the
id-keyed filter. -/
theorem filter_map_setCid (uid cid : String) :
    ∀ db : DB, (db.map (setCidRow uid cid)).filter (fun q => q.id == uid) =
      (db.filter (fun q => q.id == uid)).map (setCidRow uid cid) := by
  intro db
  induction db with
  | nil => rfl
  | cons a t ih =>
    have hid : (setCidRow uid cid a).id = a.id := by
      unfold setCidRow; split <;> rfl
    by_cases h : (a.id == uid) = true <;>
      simp [List.filter_cons, hid, h, ih]

/-- Looking a row up after the customer-id update finds the updated row. -/
theorem findProfile_map_setCid (db : DB) (uid cid : String) (p : Profile)
    (h : findProfile db uid = some p) :
    findProfile (db.map (setCidRow uid cid)) uid = some (setCidRow uid cid p) := by
  have hf := (findProfile_mem db uid p h).1
  unfold findProfile
  rw [filter_map_setCid uid cid db, hf]
  rfl

/-- C4: for a stored profile lacking a payments-customer identifier, two
successive successful checkout-session creations perform exactly one upstream
customer creation and one store of the identifier overall, and the second
call's only upstream call reuses the identifier stored by the first. -/
theorem checkout_idempotent_customer_creation
    (gu : String → Except String AuthUser) (authHeader : Option String)
    (u : AuthUser) (hauth : getSupabaseUser gu authHeader = .ok u)
    (db : DB) (p : Profile)
    (hfind : findProfile db u.id = some p)
    (hnocid : isFalsy p.stripe_customer_id = true)
    (cid1 cid2 sid1 sid2 : String) (hcid1 : cid1 ≠ "") :
    countCustomerCreates
        ((createCheckoutSession gu (.ok cid1) (.ok sid1) true true db authHeader
            (some u.id)).2.2 ++
          (createCheckoutSession gu (.ok cid2) (.ok sid2) true true
            (createCheckoutSession gu (.ok cid1) (.ok sid1) true true db authHeader
              (some u.id)).2.1 authHeader (some u.id)).2.2) = 1 ∧
    countStores
        ((createCheckoutSession gu (.ok cid1) (.ok sid1) true true db authHeader
            (some u.id)).2.2 ++
          (createCheckoutSession gu (.ok cid2) (.ok sid2) true true
            (createCheckoutSession gu (.ok cid1) (.ok sid1) true true db authHeader
              (some u.id)).2.1 authHeader (some u.id)).2.2) = 1 ∧
    (createCheckoutSession gu (.ok cid2) (.ok sid2) true true
        (createCheckoutSession gu (.ok cid1) (.ok sid1) true true db authHeader
          (some u.id)).2.1 authHeader (some u.id)).2.2 =
      [.stripeCheckoutCreate cid1] ∧
    (createCheckoutSession gu (.ok cid1) (.ok sid1) true true db authHeader
      (some u.id)).1.status = 200 ∧
    (createCheckoutSession gu (.ok cid2) (.ok sid2) true true
        (createCheckoutSession gu (.ok cid1) (.ok sid1) true true db authHeader
          (some u.id)).2.1 authHeader (some u.id)).1.status = 200 := by
  have hr1 : createCheckoutSession gu (.ok cid1) (.ok sid1) true true db authHeader
      (some u.id) =
      (⟨200, .sessionId sid1⟩, db.map (setCidRow u.id cid1),
        [.stripeCustomerCreate (orElseStr p.email u.email),
         .dbStoreCustomerId u.id cid1, .stripeCheckoutCreate cid1]) := by
    simp [createCheckoutSession, hauth, hfind, hnocid]
  have hfind2 : findProfile (db.map (setCidRow u.id cid1)) u.id =
      some (setCidRow u.id cid1 p) :=
    findProfile_map_setCid db u.id cid1 p hfind
  have hpid : (p.id == u.id) = true := (findProfile_mem db u.id p hfind).2.2
  have hset : setCidRow u.id cid1 p = { p with stripe_customer_id := some cid1 } := by
    unfold setCidRow; rw [hpid]; rfl
  have hnotfalsy : isFalsy (some cid1) = false := by
    simpa [isFalsy] using hcid1
  have hr2 : createCheckoutSession gu (.ok cid2) (.ok sid2) true true
      (db.map (setCidRow u.id cid1)) authHeader (some u.id) =
      (⟨200, .sessionId sid2⟩, db.map (setCidRow u.id cid1),
        [.stripeCheckoutCreate cid1]) := by
    rw [hset] at hfind2
    simp [createCheckoutSession, hauth, hfind2, hnotfalsy]
  rw [hr1]
  simp only [hr2]
  simp [countCustomerCreates, countStores]

/-- Witness for C4 at a concrete table whose single profile has no stored
customer id. -/
theorem checkout_idempotent_customer_creation_witness :
    getSupabaseUser (fun _ => .ok ⟨"u1", some "x@y.z"⟩) (some "Bearer t")
      = .ok ⟨"u1", some "x@y.z"⟩ ∧
    findProfile [⟨"u1", some "a@b.c", none, none, none⟩] "u1"
      = some ⟨"u1", some "a@b.c", none, none, none⟩ ∧
    isFalsy (Profile.stripe_customer_id ⟨"u1", some "a@b.c", none, none, none⟩) = true ∧
    ("cus_new" : String) ≠ "" ∧
    countCustomerCreates
        ((createCheckoutSession (fun _ => .ok ⟨"u1", some "x@y.z"⟩) (.ok "cus_new")
            (.ok "sess_1") true true [⟨"u1", some "a@b.c", none, none, none⟩]
            (some "Bearer t") (some "u1")).2.2 ++
          (createCheckoutSession (fun _ => .ok ⟨"u1", some "x@y.z"⟩) (.ok "cus_other")
            (.ok "sess_2") true true
            (createCheckoutSession (fun _ => .ok ⟨"u1", some "x@y.z"⟩) (.ok "cus_new")
              (.ok "sess_1") true true [⟨"u1", some "a@b.c", none, none, none⟩]
              (some "Bearer t") (some "u1")).2.1
            (some "Bearer t") (some "u1")).2.2) = 1 ∧
    (createCheckoutSession (fun _ => .ok ⟨"u1", some "x@y.z"⟩) (.ok "cus_other")
        (.ok "sess_2") true true
        (createCheckoutSession (fun _ => .ok ⟨"u1", some "x@y.z"⟩) (.ok "cus_new")
          (.ok "sess_1") true true [⟨"u1", some "a@b.c", none, none, none⟩]
          (some "Bearer t") (some "u1")).2.1
        (some "Bearer t") (some "u1")).2.2 =
      [.stripeCheckoutCreate "cus_new"] := by
  have h := checkout_idempotent_customer_creation
    (fun _ => .ok ⟨"u1", some "x@y.z"⟩) (some "Bearer t") ⟨"u1", some "x@y.z"⟩ rfl
    [⟨"u1", some "a@b.c", none, none, none⟩] ⟨"u1", some "a@b.c", none, none, none⟩
    rfl rfl "cus_new" "cus_other" "sess_1" "sess_2" (by decide)
  exact ⟨rfl, rfl, rfl, by decide, h.1, h.2.2.1⟩

/-- Row-for-row preservation of an already-set, non-empty payments-customer
identifier between two table states. -/
def keepsSetCid (db db' : DB) : Prop :=
  ∀ (i : Nat) (s : String), s ≠ "" →
    (db.getD i defaultProfile).stripe_customer_id = some s →
    (db'.getD i defaultProfile).stripe_customer_id = some s

theorem keepsSetCid_refl (db : DB) : keepsSetCid db db :=
  fun _ _ _ h => h

/-- A row map that keeps every set identifier of rows of the table yields a
table keeping every set identifier. -/
theorem keepsSetCid_map (g : Profile → Profile) :
    ∀ db : DB,
      (∀ p ∈ db, ∀ s : String, s ≠ "" → p.stripe_customer_id = some s →
        (g p).stripe_customer_id = some s) →
      keepsSetCid db (db.map g) := by
  intro db
  induction db with
  | nil =>
    intro _ i s _ hc
    simp [defaultProfile] at hc
  | cons a t ih =>
    intro h i s hs hc
    cases i with
    | zero =>
      simp only [List.getD_cons_zero, List.map_cons] at hc ⊢
      exact h a (by simp) s hs hc
    | succ n =>
      simp only [List.getD_cons_succ, List.map_cons] at hc ⊢
      exact ih (fun p hp => h p (by simp [hp])) n s hs hc

/-- A customer-keyed bulk update whose row function does not touch the
customer-id column keeps every set identifier. -/
theorem keepsSetCid_applyWhereCid (db : DB) (cid : Option String)
    (f : Profile → Profile)
    (hf : ∀ p, (f p).stripe_customer_id = p.stripe_customer_id) :
    keepsSetCid db (applyWhereCid db cid f) := by
  apply keepsSetCid_map
  intro q _ s _ hqc
  by_cases h : cidMatches cid q = true <;> simp [h, hf, hqc]

/-- Storing a freshly created customer id for a looked-up profile that had
none keeps every already-set identifier of the table. -/
theorem keepsSetCid_setCid (db : DB) (uid cid : String) (p : Profile)
    (hfind : findProfile db uid = some p)
    (hfalsy : isFalsy p.stripe_customer_id = true) :
    keepsSetCid db (db.map (setCidRow uid cid)) := by
  apply keepsSetCid_map
  intro q hq s hs hqc
  by_cases hid : (q.id == uid) = true
  · exfalso
    have hfilter := (findProfile_mem db uid p hfind).1
    have hm : q ∈ db.filter (fun r => r.id == uid) :=
      List.mem_filter.mpr ⟨hq, hid⟩
    rw [hfilter] at hm
    have hqp : q = p := by simpa using hm
    rw [hqp] at hqc
    rw [hqc] at hfalsy
    simp [isFalsy] at hfalsy
    exact hs hfalsy
  · simp [setCidRow, hid, hqc]

/-- The portal handler never writes the table. -/
theorem createPortalSession_db (gu : String → Except String AuthUser)
    (portalCreate : Except String String) (selOk : Bool)
    (db : DB) (authHeader : Option String) :
    (createPortalSession gu portalCreate selOk db authHeader).2.1 = db := by
  unfold createPortalSession
  repeat' split
  all_goals rfl

/-- C5: no operation of the system — checkout-session creation, portal-session
creation or webhook projection — ever clears or overwrites a profile's
already-set, non-empty payments-customer identifier, whatever the request,
oracle results and write outcomes are. -/
theorem customer_id_never_cleared
    (gu : String → Except String AuthUser)
    (custCreate sessCreate portalCreate : Except String String)
    (selOk storeOk writeOk : Bool) (db : DB)
    (authHeader bodyUserId : Option String)
    (ce : String → Option String → String → Except String StripeEvent)
    (secret rawBody : String) (sigHeader : Option String) :
    keepsSetCid db (createCheckoutSession gu custCreate sessCreate selOk storeOk db
      authHeader bodyUserId).2.1 ∧
    keepsSetCid db (createPortalSession gu portalCreate selOk db authHeader).2.1 ∧
    keepsSetCid db (stripeWebhook ce secret writeOk db rawBody sigHeader).2.1 := by
  refine ⟨?_, ?_, ?_⟩
  · unfold createCheckoutSession
    split
    · exact keepsSetCid_refl db
    · split
      · exact keepsSetCid_refl db
      · split
        · exact keepsSetCid_refl db
        · split
          · exact keepsSetCid_refl db
          · rename_i p hfind
            split
            · rename_i hfalsy
              split
              · exact keepsSetCid_refl db
              · cases storeOk <;> cases sessCreate <;>
                  (try simp) <;>
                  first
                    | exact keepsSetCid_refl db
                    | exact keepsSetCid_setCid db _ _ p hfind hfalsy
            · split <;> exact keepsSetCid_refl db
  · rw [createPortalSession_db]
    exact keepsSetCid_refl db
  · unfold stripeWebhook
    split
    · exact keepsSetCid_refl db
    · rename_i ev heq
      by_cases h1 : ev.type = "checkout.session.completed"
      · by_cases h2 : ev.object.mode = some "subscription"
        · cases writeOk <;> simp [h1, h2] <;>
            first
              | exact keepsSetCid_refl db
              | exact keepsSetCid_applyWhereCid db ev.object.customer _
                  (fun p => rfl)
        · simp only [h1, h2, if_true, if_false, ite_true, ite_false, if_neg h2]
          exact keepsSetCid_refl db
      · by_cases h3 : ev.type = "customer.subscription.updated" ∨
          ev.type = "customer.subscription.deleted"
        · cases writeOk <;> simp [h1, h3] <;>
            first
              | exact keepsSetCid_refl db
              | exact keepsSetCid_applyWhereCid db ev.object.customer _
                  (fun p => rfl)
        · simp only [if_neg h1, if_neg h3]
          exact keepsSetCid_refl db

end MyAppBackend
